import Mathlib

/-!
Formal model of the usecase_ts library: the Result pattern core
(result-wrapper.ts, use-case.ts) embedded shallowly in Lean.
JavaScript values are modelled by an inductive type, thrown values and
rejected promises by an explicit outcome type, and the async layer is
collapsed to its settled value (the library is strictly sequential).
The classes Result, Context and ResultPromise live in files that are not
part of the sources at hand (result.ts, context.ts); those definitions
are modelled from the spec and marked as such in their doc comments.
-/

namespace UsecaseTs

/-- Model of a JavaScript runtime value, covering the shapes the library
inspects: null, undefined, booleans, strings, numbers, arrays, plain
objects, and Error instances. An Error carries the list of constructor
names on its prototype chain, most derived first, and its message. -/
inductive JSVal where
  | vNull
  | vUndefined
  | vBool (b : Bool)
  | vStr (s : String)
  | vNum (n : Int)
  | vArr (elems : List JSVal)
  | vObj (fields : List (String × JSVal))
  | vError (classes : List String) (message : String)

/-- Test for value instanceof Error: true exactly for Error instances. -/
def JSVal.isError : JSVal → Bool
  | .vError _ _ => true
  | _ => false

/-- Strict equality with null. -/
def JSVal.isNull : JSVal → Bool
  | .vNull => true
  | _ => false

/-- Strict equality with undefined. -/
def JSVal.isUndefined : JSVal → Bool
  | .vUndefined => true
  | _ => false

/-- Strict equality with the empty string. -/
def JSVal.isEmptyString : JSVal → Bool
  | .vStr s => s == ""
  | _ => false

/-- Strict equality with the number 0. -/
def JSVal.isZero : JSVal → Bool
  | .vNum n => n == 0
  | _ => false

/-- Test mirroring Array.isArray. -/
def JSVal.isArray : JSVal → Bool
  | .vArr _ => true
  | _ => false

/-- Test for typeof value being the string object; in JavaScript this
holds for null, arrays, plain objects and Errors. -/
def JSVal.isObjectType : JSVal → Bool
  | .vNull => true
  | .vArr _ => true
  | .vObj _ => true
  | .vError _ _ => true
  | _ => false

/-- Own enumerable keys, as Object.keys: the field names of a plain
object. A direct Error instance has none (message and stack are
non-enumerable), while the error subclasses the library defines
(result-wrapper.ts lines 300 to 337) all assign this.name in their
constructors, an own enumerable key; a subclass chain is therefore
modelled with the key name. Only consulted by the library behind guards
excluding null and arrays. -/
def JSVal.ownKeys : JSVal → List String
  | .vObj fields => fields.map Prod.fst
  | .vError classes _ => if classes.length ≤ 1 then [] else ["name"]
  | _ => []

mutual
/-- Default string conversion, as String(v) in JavaScript. -/
def jsToString : JSVal → String
  | .vNull => "null"
  | .vUndefined => "undefined"
  | .vBool b => if b then "true" else "false"
  | .vStr s => s
  | .vNum n => toString n
  | .vArr elems => jsArrToString elems
  | .vObj _ => "[object Object]"
  | .vError classes message =>
      let nm := classes.headD "Error"
      if message == "" then nm else nm ++ ": " ++ message

/-- String conversion of an array: elements joined with commas; join
renders null and undefined elements as empty strings. -/
def jsArrToString : List JSVal → String
  | [] => ""
  | [v] => if v.isNull || v.isUndefined then "" else jsToString v
  | v :: rest =>
      (if v.isNull || v.isUndefined then "" else jsToString v) ++ "," ++ jsArrToString rest
end

/-- Test for value instanceof C where C is a constructor name: an Error
instance matches every constructor on its prototype chain; no other
modelled value is an instance of an Error constructor. -/
def JSVal.instanceOf (v : JSVal) (ctor : String) : Bool :=
  match v with
  | .vError classes _ => classes.contains ctor
  | _ => false

/-- Construction new Error(message): a direct Error instance. -/
def mkError (message : String) : JSVal := .vError ["Error"] message

/-- Context mapping attached to a Result: a record from operation name
to an arbitrary value (a Context object, or free-form data such as the
rawError entry written by the UNEXPECTED_ERROR branch). -/
abbrev CtxMap := List (String × JSVal)

/-- Lookup of a key in an optional context mapping. -/
def ctxLookup (k : String) : Option CtxMap → Option JSVal
  | none => none
  | some m => (m.find? (fun kv => kv.fst == k)).map Prod.snd

/-- Modelled from the spec: the Context class of the missing context.ts
pairs the input and the output of one operation invocation, exposed as
the fields inputParams and outputParams. -/
def mkContextVal (inputParams outputParams : JSVal) : JSVal :=
  .vObj [("inputParams", inputParams), ("outputParams", outputParams)]

/-- Discriminant of a Result, fixed at construction time. -/
inductive ResultStatus where
  | success
  | failure
  deriving DecidableEq, Repr

/-- Modelled from the spec: the Result class of the missing result.ts.
Immutable value holding either a success payload or a failure payload
(error plus tag), an optional context mapping and the name of the
operation that produced it. On success the error slot is undefined; on
failure the value slot is undefined. -/
structure Result where
  status : ResultStatus
  value : JSVal
  error : JSVal
  failureType : String
  context : Option CtxMap
  originatingOperation : Option String

/-- Modelled from the spec: the Success factory of the missing
result.ts stores the given value, optional context mapping and optional
operation name, with failureType SUCCESS. -/
def Success (value : JSVal) (context : Option CtxMap) (operationName : Option String) : Result :=
  { status := .success, value := value, error := .vUndefined,
    failureType := "SUCCESS", context := context,
    originatingOperation := operationName }

/-- Modelled from the spec: the Failure factory of the missing
result.ts stores the given tag, optional context mapping and optional
operation name, and coerces a non-Error argument to a true Error whose
message is its default string conversion. -/
def Failure (error : JSVal) (failureType : String) (context : Option CtxMap) (operationName : Option String) : Result :=
  { status := .failure, value := .vUndefined,
    error := if error.isError then error else mkError (jsToString error),
    failureType := failureType, context := context,
    originatingOperation := operationName }

/-- Predicate isSuccess of Result. -/
def Result.isSuccess (r : Result) : Bool :=
  match r.status with
  | .success => true
  | .failure => false

/-- Predicate isFailure of Result. -/
def Result.isFailure (r : Result) : Bool :=
  match r.status with
  | .success => false
  | .failure => true

/-- Accessor getValue of Result: returns the value slot, undefined on a
failure, never throws. -/
def Result.getValue (r : Result) : JSVal := r.value

/-- Accessor getError of Result: returns the error slot, undefined on a
success, never throws. -/
def Result.getError (r : Result) : JSVal := r.error

/-- Accessor getType of Result: the failure tag, SUCCESS on success. -/
def Result.getType (r : Result) : String := r.failureType

/-- Modelled from the spec: ResultPromise of the missing result.ts
wraps a promise of a Result. The async layer is collapsed: the wrapped
promise is its settled outcome, either a Result or a rejection value. -/
structure ResultPromise where
  promise : Except JSVal Result

/-- Union of two context mappings: downstream entries win on key
collision, all other upstream entries are preserved. -/
def ctxUnion (upstream downstream : CtxMap) : CtxMap :=
  upstream.filter (fun kv => !(downstream.any (fun kv2 => kv2.fst == kv.fst))) ++ downstream

/-- Merge of the optional context mappings of two chained Results. -/
def mergeContextOpt (upstream downstream : Option CtxMap) : Option CtxMap :=
  match upstream, downstream with
  | none, d => d
  | some u, none => some u
  | some u, some d => some (ctxUnion u d)

/-- Modelled from the spec: the and_then combinator of ResultPromise.
Await the current Result; on failure short-circuit with the same
failure without invoking the step; on success invoke the step on the
value, await its Result and merge the context mappings, downstream
winning on collision. A rejected promise propagates its rejection. -/
def ResultPromise.and_then (p : ResultPromise) (step : JSVal → ResultPromise) : ResultPromise :=
  match p.promise with
  | .error v => ⟨.error v⟩
  | .ok r =>
    match r.status with
    | .failure => ⟨.ok r⟩
    | .success =>
      match (step r.value).promise with
      | .error w => ⟨.error w⟩
      | .ok r2 => ⟨.ok { r2 with context := mergeContextOpt r.context r2.context }⟩

/-- Outcome of invoking and awaiting an execute method: the promise
resolves to a Result, or the call throws or the promise rejects with a
raw value. -/
inductive ExecOutcome where
  | ok (r : Result)
  | throws (v : JSVal)

/-- Shallow embedding of a BaseUseCase instance from use-case.ts: its
constructor name and its execute method. -/
structure BaseUseCase where
  name : String
  execute : JSVal → ExecOutcome

/-- Default execute body of BaseUseCase (use-case.ts lines 13 to 15):
throws an Error when the subclass did not override it. -/
def defaultExecute : JSVal → ExecOutcome :=
  fun _ => .throws (mkError "Method not implemented. Override this method in a subclass.")

/-- Embedding of BaseUseCase private method executeWithErrorHandling
(use-case.ts lines 32 to 69). Debug-sink calls are fire-and-forget and
do not affect the produced Result, so they are dropped here. -/
def BaseUseCase.executeWithErrorHandling (uc : BaseUseCase) (params : JSVal) : Result :=
  match uc.execute params with
  | .ok result =>
    if result.isFailure then
      Failure result.getError result.getType result.context (some uc.name)
    else
      Success result.getValue
        (some [(uc.name, mkContextVal params result.getValue)])
        (some uc.name)
  | .throws error =>
    let errorObj := if error.isError then error else mkError (jsToString error)
    Failure errorObj "UNEXPECTED_ERROR" (some [("rawError", error)]) (some uc.name)

/-- Embedding of the instance method BaseUseCase.call (use-case.ts
lines 23 to 26): wraps the error-handled execution in a ResultPromise.
The wrapping async method catches everything, so the promise always
resolves. -/
def BaseUseCase.call (uc : BaseUseCase) (params : JSVal) : ResultPromise :=
  ⟨.ok (uc.executeWithErrorHandling params)⟩

/-- Receiver of the static method UseCase.call: either the abstract
UseCase class itself, or a concrete subclass, identified with the
instance its nullary constructor produces. -/
inductive UseCaseClassRef where
  | abstractBase
  | concrete (inst : BaseUseCase)

/-- Embedding of the static method UseCase.call (use-case.ts lines 83
to 95): on the abstract base it returns a ResultPromise wrapping a
rejected promise; on a concrete subclass it instantiates the class and
delegates to the instance call. -/
def UseCase.staticCall (cls : UseCaseClassRef) (params : JSVal) : ResultPromise :=
  match cls with
  | .abstractBase => ⟨.error (mkError "Cannot call static method on abstract UseCase class")⟩
  | .concrete uc => uc.call params

/-- Entry of an ErrorMapping (result-wrapper.ts lines 3 to 6): an error
constructor, identified by name, paired with a failure tag. -/
structure ErrorMappingEntry where
  errorType : String
  failureType : String

/-- WrapperOptions (result-wrapper.ts lines 8 to 13); every field is
optional in the source, so each is an Option here and the destructuring
defaults are applied at the use sites, as in the source. -/
structure WrapperOptions where
  errorMappings : Option (List ErrorMappingEntry) := none
  defaultFailureType : Option String := none
  context : Option CtxMap := none
  useCaseClass : Option String := none

/-- Value a custom validation returns: a boolean or a message string. -/
inductive CustomValidationResult where
  | ofBool (b : Bool)
  | ofStr (s : String)

/-- ValueWrapperOptions (result-wrapper.ts lines 15 to 23): the wrapper
options plus the validation toggles and an optional custom validation.
An absent toggle is falsy, so toggles default to false. -/
structure ValueWrapperOptions extends WrapperOptions where
  nullAsFailure : Bool := false
  undefinedAsFailure : Bool := false
  emptyStringAsFailure : Bool := false
  zeroAsFailure : Bool := false
  emptyArrayAsFailure : Bool := false
  emptyObjectAsFailure : Bool := false
  customValidation : Option (JSVal → CustomValidationResult) := none

/-- Embedding of mapErrorToFailureType (result-wrapper.ts lines 33 to
44): scan the ordered mappings and return the tag of the first entry
whose constructor the error is an instance of, or the default tag when
none matches. -/
def mapErrorToFailureType (error : JSVal) : List ErrorMappingEntry → String → String
  | [], defaultFailureType => defaultFailureType
  | m :: rest, defaultFailureType =>
    if error.instanceOf m.errorType then m.failureType
    else mapErrorToFailureType error rest defaultFailureType

/-- Length of an array value; only consulted behind an isArray guard. -/
def JSVal.arrayLength : JSVal → Nat
  | .vArr elems => elems.length
  | _ => 0

/-- Embedding of validateValue (result-wrapper.ts lines 53 to 92): the
chain of checks in source order, each short-circuiting with its message
on first failure; none is the source returning true. -/
def validateValue (value : JSVal) (options : ValueWrapperOptions) : Option String :=
  if options.nullAsFailure && value.isNull then
    some "Value is null"
  else if options.undefinedAsFailure && value.isUndefined then
    some "Value is undefined"
  else if options.emptyStringAsFailure && value.isEmptyString then
    some "Value is empty string"
  else if options.zeroAsFailure && value.isZero then
    some "Value is zero"
  else if options.emptyArrayAsFailure && value.isArray && value.arrayLength == 0 then
    some "Value is empty array"
  else if options.emptyObjectAsFailure && !value.isNull && value.isObjectType
      && !value.isArray && value.ownKeys.length == 0 then
    some "Value is empty object"
  else
    match options.customValidation with
    | some f =>
      match f value with
      | .ofBool true => none
      | .ofBool false => some "Custom validation failed"
      | .ofStr s => some s
    | none => none

/-- Second argument of ResultWrapper: an argument array, an options
object, or absent. -/
inductive ParamsOrOptions where
  | params (args : List JSVal)
  | opts (config : WrapperOptions)
  | missing

/-- Outcome of invoking a wrapped plain function: it returns a value or
throws a raw value. -/
inductive CallOutcome where
  | returns (v : JSVal)
  | throws (v : JSVal)

/-- Embedding of ResultWrapper (result-wrapper.ts lines 103 to 142).
The wrapped function either returns a value or throws; the argument
versus options shape detection mirrors the Array.isArray test. -/
def ResultWrapper (fn : List JSVal → CallOutcome) (paramsOrOptions : ParamsOrOptions) (options : Option WrapperOptions) : Result :=
  let params : List JSVal :=
    match paramsOrOptions with
    | .params args => args
    | _ => []
  let config : WrapperOptions :=
    match paramsOrOptions with
    | .params _ => options.getD {}
    | .opts c => c
    | .missing => {}
  let errorMappings := config.errorMappings.getD []
  let defaultFailureType := config.defaultFailureType.getD "FAILURE"
  match fn params with
  | .returns result => Success result config.context config.useCaseClass
  | .throws error =>
    let mappedFailureType := mapErrorToFailureType error errorMappings defaultFailureType
    let wrappedError := if error.isError then error else mkError (jsToString error)
    Failure wrappedError mappedFailureType config.context config.useCaseClass

/-- Embedding of ResultWrapValue (result-wrapper.ts lines 202 to 236):
an Error argument is mapped to a Failure at once; any other value runs
the validation pipeline and is wrapped as Success when it passes. -/
def ResultWrapValue (value : JSVal) (options : ValueWrapperOptions) : Result :=
  let errorMappings := options.errorMappings.getD []
  let defaultFailureType := options.defaultFailureType.getD "FAILURE"
  if value.isError then
    Failure value (mapErrorToFailureType value errorMappings defaultFailureType)
      options.context options.useCaseClass
  else
    match validateValue value options with
    | some msg =>
      let err := mkError msg
      Failure err (mapErrorToFailureType err errorMappings defaultFailureType)
        options.context options.useCaseClass
    | none => Success value options.context options.useCaseClass

/-- Argument of ResultWrapValueAsync: an immediate value, or a promise
that resolves to a value or rejects with a raw value. -/
inductive AsyncValue where
  | immediate (v : JSVal)
  | promise (p : Except JSVal JSVal)

/-- Embedding of ResultWrapValueAsync (result-wrapper.ts lines 246 to
297). The instanceof Error test applies to the argument itself, so only
an immediate Error takes the early Failure branch; a promise is awaited
first and its resolved value runs the validation pipeline, while a
rejection is caught and mapped like a thrown error. -/
def ResultWrapValueAsync (value : AsyncValue) (options : ValueWrapperOptions) : Result :=
  let errorMappings := options.errorMappings.getD []
  let defaultFailureType := options.defaultFailureType.getD "FAILURE"
  let wrapResolved : JSVal → Result := fun v =>
    match validateValue v options with
    | some msg =>
      let err := mkError msg
      Failure err (mapErrorToFailureType err errorMappings defaultFailureType)
        options.context options.useCaseClass
    | none => Success v options.context options.useCaseClass
  match value with
  | .immediate v =>
    if v.isError then
      Failure v (mapErrorToFailureType v errorMappings defaultFailureType)
        options.context options.useCaseClass
    else
      wrapResolved v
  | .promise (Except.ok v) => wrapResolved v
  | .promise (Except.error e) =>
    let wrappedError := if e.isError then e else mkError (jsToString e)
    Failure wrappedError (mapErrorToFailureType e errorMappings defaultFailureType)
      options.context options.useCaseClass

/-! ## Theorems for the claims -/

/-- Use case whose execute returns a Success that already carries a
context entry under the key Other; exercises the success branch of the
call wrapper for claim C1. -/
def ucWithPriorContext : BaseUseCase :=
  ⟨"MyUseCase",
   fun _ => .ok (Success (JSVal.vStr "out") (some [("Other", JSVal.vStr "prior")]) none)⟩

/-- C1 counterexample: with a use case whose execute resolves to a
Success carrying the context entry Other, the Result of call has as its
context exactly the fresh entry keyed by the class name; the entry
Other from the Result execute returned is absent, so the fresh entry
replaces rather than merges with the context of execute. -/
theorem C1_counterexample :
    (ucWithPriorContext.executeWithErrorHandling (JSVal.vStr "in")).context
      = some [("MyUseCase", mkContextVal (JSVal.vStr "in") (JSVal.vStr "out"))]
    ∧ ctxLookup "Other"
        (ucWithPriorContext.executeWithErrorHandling (JSVal.vStr "in")).context = none :=
  ⟨rfl, rfl⟩

/-- C1 amended: for every use case whose execute resolves to a success
Result, call resolves to a Success whose context mapping is exactly the
singleton fresh entry keyed by the class name, pairing the input of the
call with the success value; any context mapping carried by the Result
execute returned is discarded, not merged. -/
theorem C1_call_success_context_is_fresh_entry
    (uc : BaseUseCase) (params : JSVal) (r : Result)
    (hexec : uc.execute params = ExecOutcome.ok r)
    (hsucc : r.isFailure = false) :
    (uc.call params).promise
      = Except.ok (Success r.getValue
          (some [(uc.name, mkContextVal params r.getValue)]) (some uc.name)) := by
  simp [BaseUseCase.call, BaseUseCase.executeWithErrorHandling, hexec, hsucc]

/-- Witness for the amended C1 at a concrete use case and input. -/
theorem C1_witness :
    (ucWithPriorContext.call (JSVal.vStr "in")).promise
      = Except.ok (Success (JSVal.vStr "out")
          (some [("MyUseCase", mkContextVal (JSVal.vStr "in") (JSVal.vStr "out"))])
          (some "MyUseCase")) :=
  C1_call_success_context_is_fresh_entry ucWithPriorContext (JSVal.vStr "in")
    (Success (JSVal.vStr "out") (some [("Other", JSVal.vStr "prior")]) none) rfl rfl

/-- C2: for every failure Result built as Failure of an error, a tag, a
context and an operation name, and for every step, and_then yields a
settled ResultPromise carrying exactly the same failure Result, with
the same error, tag, context and operation name; the right-hand side
does not depend on the step, so the step is never invoked. -/
theorem C2_and_then_short_circuits_on_failure
    (e : JSVal) (tag : String) (ctx : Option CtxMap) (op : Option String)
    (step : JSVal → ResultPromise) :
    (ResultPromise.mk (Except.ok (Failure e tag ctx op))).and_then step
      = ⟨Except.ok (Failure e tag ctx op)⟩ :=
  rfl

/-- C3: for every use case whose execute throws or rejects with a value
v, call resolves, does not reject, to a Failure whose error is v itself
when v is an Error and otherwise a new Error with message String of v,
tagged UNEXPECTED_ERROR, with context holding v under the key rawError,
and with the class name as originating operation. -/
theorem C3_throwing_execute_becomes_unexpected_error
    (uc : BaseUseCase) (params v : JSVal)
    (h : uc.execute params = ExecOutcome.throws v) :
    (uc.call params).promise
      = Except.ok (Failure (if v.isError then v else mkError (jsToString v))
          "UNEXPECTED_ERROR" (some [("rawError", v)]) (some uc.name)) := by
  simp [BaseUseCase.call, BaseUseCase.executeWithErrorHandling, h]

/-- Witness for C3 at a use case that throws a non-Error string. -/
theorem C3_witness :
    ((BaseUseCase.mk "ThrowingUC"
        (fun _ => ExecOutcome.throws (JSVal.vStr "boom"))).call JSVal.vNull).promise
      = Except.ok (Failure
          (if (JSVal.vStr "boom").isError then JSVal.vStr "boom"
           else mkError (jsToString (JSVal.vStr "boom")))
          "UNEXPECTED_ERROR" (some [("rawError", JSVal.vStr "boom")]) (some "ThrowingUC")) :=
  C3_throwing_execute_becomes_unexpected_error
    ⟨"ThrowingUC", fun _ => ExecOutcome.throws (JSVal.vStr "boom")⟩
    JSVal.vNull (JSVal.vStr "boom") rfl

/-- C4: for every use case whose execute resolves to a failure Result
with a genuine Error in its error slot, call resolves to a Failure with
the identical error object, failure tag and context, and with only the
originating operation newly stamped to the class name. -/
theorem C4_failure_rewrap_preserves_error_tag_context
    (uc : BaseUseCase) (params : JSVal) (r : Result)
    (hexec : uc.execute params = ExecOutcome.ok r)
    (hfail : r.isFailure = true)
    (herr : r.error.isError = true) :
    (uc.call params).promise = Except.ok (uc.executeWithErrorHandling params)
    ∧ (uc.executeWithErrorHandling params).isFailure = true
    ∧ (uc.executeWithErrorHandling params).getError = r.getError
    ∧ (uc.executeWithErrorHandling params).getType = r.getType
    ∧ (uc.executeWithErrorHandling params).context = r.context
    ∧ (uc.executeWithErrorHandling params).originatingOperation = some uc.name := by
  obtain ⟨status, value, error, failureType, context, originatingOperation⟩ := r
  cases status with
  | success => simp [Result.isFailure] at hfail
  | failure =>
    refine ⟨rfl, ?_, ?_, ?_, ?_, ?_⟩ <;>
      simp_all [BaseUseCase.executeWithErrorHandling, Failure, Result.isFailure,
        Result.getError, Result.getType]

/-- Witness for C4 at a use case returning a concrete failure. -/
theorem C4_witness :
    (((BaseUseCase.mk "FailUC"
        (fun _ => ExecOutcome.ok (Failure (mkError "no") "NOPE" none none))).call
          (JSVal.vNum 1)).promise
      = Except.ok ((BaseUseCase.mk "FailUC"
          (fun _ => ExecOutcome.ok
            (Failure (mkError "no") "NOPE" none none))).executeWithErrorHandling
              (JSVal.vNum 1)))
    ∧ ((BaseUseCase.mk "FailUC"
        (fun _ => ExecOutcome.ok
          (Failure (mkError "no") "NOPE" none none))).executeWithErrorHandling
            (JSVal.vNum 1)).isFailure = true
    ∧ ((BaseUseCase.mk "FailUC"
        (fun _ => ExecOutcome.ok
          (Failure (mkError "no") "NOPE" none none))).executeWithErrorHandling
            (JSVal.vNum 1)).getError = (Failure (mkError "no") "NOPE" none none).getError
    ∧ ((BaseUseCase.mk "FailUC"
        (fun _ => ExecOutcome.ok
          (Failure (mkError "no") "NOPE" none none))).executeWithErrorHandling
            (JSVal.vNum 1)).getType = (Failure (mkError "no") "NOPE" none none).getType
    ∧ ((BaseUseCase.mk "FailUC"
        (fun _ => ExecOutcome.ok
          (Failure (mkError "no") "NOPE" none none))).executeWithErrorHandling
            (JSVal.vNum 1)).context = (Failure (mkError "no") "NOPE" none none).context
    ∧ ((BaseUseCase.mk "FailUC"
        (fun _ => ExecOutcome.ok
          (Failure (mkError "no") "NOPE" none none))).executeWithErrorHandling
            (JSVal.vNum 1)).originatingOperation = some "FailUC" :=
  C4_failure_rewrap_preserves_error_tag_context
    ⟨"FailUC", fun _ => ExecOutcome.ok (Failure (mkError "no") "NOPE" none none)⟩
    (JSVal.vNum 1) (Failure (mkError "no") "NOPE" none none) rfl rfl rfl

/-- C5: mapErrorToFailureType returns the tag of the first mapping in
order whose constructor the value is an instance of, expressed through
the first-match semantics of find? over the ordered list, and the
default tag when none matches; in particular, with the mappings SubError
to S then Error to E and a thrown SubError that subclasses Error, the
resulting tag is S. -/
theorem C5_mapErrorToFailureType_first_match_wins :
    (∀ (v : JSVal) (ms : List ErrorMappingEntry) (d : String),
       mapErrorToFailureType v ms d
         = ((ms.find? (fun m => v.instanceOf m.errorType)).map
             ErrorMappingEntry.failureType).getD d)
    ∧ mapErrorToFailureType (JSVal.vError ["SubError", "Error"] "boom")
        [⟨"SubError", "S"⟩, ⟨"Error", "E"⟩] "FAILURE" = "S" := by
  constructor
  · intro v ms d
    induction ms with
    | nil => rfl
    | cons m rest ih =>
      simp only [mapErrorToFailureType, List.find?]
      cases h : v.instanceOf m.errorType <;> simp [h, ih]
  · rfl

/-- C6: the validation pipeline evaluates its checks in the fixed order
null, undefined, empty string, zero, empty array, empty object, then
custom validation, each enabled check short-circuiting with its fixed
message no matter which later toggles or custom validation are set; in
particular ResultWrapValue of null with both the null and the undefined
toggles yields a Failure whose error message is Value is null. -/
theorem C6_validation_pipeline_fixed_order :
    (∀ o : ValueWrapperOptions,
       validateValue JSVal.vNull { o with nullAsFailure := true } = some "Value is null")
    ∧ (∀ o : ValueWrapperOptions,
       validateValue JSVal.vUndefined { o with undefinedAsFailure := true }
         = some "Value is undefined")
    ∧ (∀ o : ValueWrapperOptions,
       validateValue (JSVal.vStr "") { o with emptyStringAsFailure := true }
         = some "Value is empty string")
    ∧ (∀ o : ValueWrapperOptions,
       validateValue (JSVal.vNum 0) { o with zeroAsFailure := true } = some "Value is zero")
    ∧ (∀ o : ValueWrapperOptions,
       validateValue (JSVal.vArr []) { o with emptyArrayAsFailure := true }
         = some "Value is empty array")
    ∧ (∀ o : ValueWrapperOptions,
       validateValue (JSVal.vObj []) { o with emptyObjectAsFailure := true }
         = some "Value is empty object")
    ∧ (ResultWrapValue JSVal.vNull { nullAsFailure := true, undefinedAsFailure := true }).getError
        = mkError "Value is null"
    ∧ (ResultWrapValue JSVal.vNull
        { nullAsFailure := true, undefinedAsFailure := true }).isFailure = true := by
  refine ⟨?_, ?_, ?_, ?_, ?_, ?_, rfl, rfl⟩ <;>
    intro o <;>
    simp [validateValue, JSVal.isNull, JSVal.isUndefined, JSVal.isEmptyString,
      JSVal.isZero, JSVal.isArray, JSVal.isObjectType, JSVal.ownKeys, JSVal.arrayLength]

/-- C7: ResultWrapper in the three-argument form never throws: when the
function applied to the arguments returns a value r the wrapper returns
Success of r with the configured context and label, and when it throws
a value v the wrapper returns a Failure whose tag comes from
mapErrorToFailureType over the configured mappings with default FAILURE
and whose error is v itself when v is an Error and otherwise a new
Error with message String of v. -/
theorem C7_ResultWrapper_total_wrapping
    (fn : List JSVal → CallOutcome) (args : List JSVal) (opts : WrapperOptions) :
    (∀ r : JSVal, fn args = CallOutcome.returns r →
       ResultWrapper fn (ParamsOrOptions.params args) (some opts)
         = Success r opts.context opts.useCaseClass)
    ∧ (∀ v : JSVal, fn args = CallOutcome.throws v →
       ResultWrapper fn (ParamsOrOptions.params args) (some opts)
         = Failure (if v.isError then v else mkError (jsToString v))
             (mapErrorToFailureType v (opts.errorMappings.getD [])
               (opts.defaultFailureType.getD "FAILURE"))
             opts.context opts.useCaseClass) := by
  constructor
  · intro r h
    simp [ResultWrapper, h]
  · intro v h
    simp [ResultWrapper, h]

/-- Witness for C7: a returning function and a throwing function, both
wrapped with empty options. -/
theorem C7_witness :
    (ResultWrapper (fun _ => CallOutcome.returns (JSVal.vNum 5))
        (ParamsOrOptions.params []) (some {})
      = Success (JSVal.vNum 5) ({} : WrapperOptions).context ({} : WrapperOptions).useCaseClass)
    ∧ (ResultWrapper (fun _ => CallOutcome.throws (JSVal.vStr "bad"))
        (ParamsOrOptions.params []) (some {})
      = Failure
          (if (JSVal.vStr "bad").isError then JSVal.vStr "bad"
           else mkError (jsToString (JSVal.vStr "bad")))
          (mapErrorToFailureType (JSVal.vStr "bad")
            (({} : WrapperOptions).errorMappings.getD [])
            (({} : WrapperOptions).defaultFailureType.getD "FAILURE"))
          ({} : WrapperOptions).context ({} : WrapperOptions).useCaseClass) :=
  ⟨(C7_ResultWrapper_total_wrapping (fun _ => CallOutcome.returns (JSVal.vNum 5)) [] {}).1
      (JSVal.vNum 5) rfl,
   (C7_ResultWrapper_total_wrapping (fun _ => CallOutcome.throws (JSVal.vStr "bad")) [] {}).2
      (JSVal.vStr "bad") rfl⟩

/-- C8: for every concrete subclass, identified with the instance its
constructor produces, and every input, the static class-level call
yields the very same ResultPromise as the instance-level call, so the
two invocation forms are behaviorally identical. -/
theorem C8_static_call_equals_instance_call
    (uc : BaseUseCase) (params : JSVal) :
    UseCase.staticCall (UseCaseClassRef.concrete uc) params = uc.call params :=
  rfl

/-- C9: for every class name and every input, calling a BaseUseCase
whose execute was not overridden resolves, does not reject, to a
Failure tagged UNEXPECTED_ERROR whose error is the Error with message
Method not implemented. Override this method in a subclass. and whose
context holds that raw error under the key rawError. -/
theorem C9_default_execute_yields_unexpected_error
    (nm : String) (params : JSVal) :
    ((BaseUseCase.mk nm defaultExecute).call params).promise
      = Except.ok (Failure
          (mkError "Method not implemented. Override this method in a subclass.")
          "UNEXPECTED_ERROR"
          (some [("rawError",
            mkError "Method not implemented. Override this method in a subclass.")])
          (some nm)) :=
  rfl

/-- C10: the immediate Error-to-Failure branch of ResultWrapValueAsync
fires only on an argument that is itself an Error: an immediate Error
argument is converted to a Failure at once, even with no options
configured, while a promise that resolves to an Error is awaited and
its resolved Error runs through the validation pipeline instead, so
with no validation options configured the call returns a Success whose
value is that Error object. -/
theorem C10_resolved_error_passes_validation :
    (∀ (classes : List String) (message : String),
       ResultWrapValueAsync
           (AsyncValue.immediate (JSVal.vError classes message)) {}
         = Failure (JSVal.vError classes message) "FAILURE" none none)
    ∧ (∀ (classes : List String) (message : String),
       ResultWrapValueAsync
           (AsyncValue.promise (Except.ok (JSVal.vError classes message))) {}
         = Success (JSVal.vError classes message) none none) :=
  ⟨fun _ _ => rfl, fun _ _ => rfl⟩

end UsecaseTs
